import Mathlib

/-!
Shallow embedding of the AIAgentChatBot retrieval-and-generation pipeline
(`src/chatbot/rag.py`, `src/chatbot/llm.py`, `src/chatbot/embedding.py`,
`src/chatbot/conversation.py`, `src/chatbot/database.py`, `src/app.py`)
together with theorems settling the frozen specification claims.

External collaborators (the SQLite engine, the FAISS index, the HTTP
completion endpoint, `json.loads`) are modelled as explicit parameters /
outcome values; all decision logic of the repository is translated
faithfully from the Python source.
-/

namespace DCChat

/-- The apostrophe character, used when building the source's literal
message strings. -/
def aposChar : Char := Char.ofNat 39

/-- The apostrophe as a one-character string. -/
def apos : String := String.singleton aposChar

/-- Contiguous-sublist check on character lists, by recursion on the
searched list. -/
def charsInfix (pat : List Char) : List Char → Bool
  | [] => pat.isPrefixOf []
  | c :: rest => pat.isPrefixOf (c :: rest) || charsInfix pat rest

/-- Python's `sub in s` substring containment on strings. -/
def strContains (s pat : String) : Bool := charsInfix pat.data s.data

/-- Python's `str.lower()`, character by character. -/
def pyLower (s : String) : String := String.mk (s.data.map Char.toLower)

/-- Worker for `pyTokens`: split a character list on whitespace runs,
accumulating the current (reversed) token. -/
def wsSplitGo (cur : List Char) : List Char → List (List Char)
  | [] => if cur.isEmpty then [] else [cur.reverse]
  | c :: rest =>
    if c.isWhitespace then
      if cur.isEmpty then wsSplitGo [] rest
      else cur.reverse :: wsSplitGo [] rest
    else wsSplitGo (c :: cur) rest

/-- Python's `str.split()` with no arguments: split on whitespace runs and
drop empty pieces. -/
def pyTokens (s : String) : List String :=
  (wsSplitGo [] s.data).map String.mk

/-- Python's `str.strip()`: drop whitespace from both ends. -/
def pyStrip (s : String) : String :=
  String.mk (((s.data.dropWhile Char.isWhitespace).reverse.dropWhile Char.isWhitespace).reverse)

/-- Worker for `pySplitOn`: `skip` counts separator characters still to be
consumed after a separator match. The separator is assumed non-empty. -/
def splitOnGo (sep : List Char) (skip : Nat) (acc : List Char) : List Char → List (List Char)
  | [] => [acc.reverse]
  | c :: rest =>
    match skip with
    | n + 1 => splitOnGo sep n acc rest
    | 0 =>
      if sep.isPrefixOf (c :: rest) then
        acc.reverse :: splitOnGo sep (sep.length - 1) [] rest
      else splitOnGo sep 0 (c :: acc) rest

/-- Python's `str.split(sep)` for a non-empty separator: leftmost,
non-overlapping splitting that keeps empty pieces. -/
def pySplitOn (s sep : String) : List String :=
  (splitOnGo sep.data 0 [] s.data).map String.mk

/-! ## RAGEngine.is_sql_query (src/chatbot/rag.py lines 59-81) -/

/-- The SQL keyword list from `RAGEngine.is_sql_query`. -/
def sql_keywords : List String :=
  ["select", "from", "where", "join", "group by", "order by", "limit"]

/-- The `re.search(r'^\s*select', text_lower)` test: after leading
whitespace, the text starts with "select". -/
def startsWithSelect (text_lower : String) : Bool :=
  "select".data.isPrefixOf (text_lower.data.dropWhile Char.isWhitespace)

/-- `RAGEngine.is_sql_query`: the text is SQL if it matches `^\s*select`
and contains `from`, or contains at least two of the SQL keywords. -/
def is_sql_query (text : String) : Bool :=
  let text_lower := pyLower text
  if startsWithSelect text_lower && strContains text_lower "from" then
    true
  else if 2 ≤ sql_keywords.countP (fun keyword => strContains text_lower keyword) then
    true
  else
    false

/-- C1: literal-SQL detection returns true iff the lowercased input matches
`^\s*select` and contains "from", or contains at least two members of the
keyword set; in particular any input containing both "select" and "from"
(case-insensitively) is detected. -/
theorem c1_is_sql_query_spec (text : String) :
    (is_sql_query text = true ↔
      ((startsWithSelect (pyLower text) = true
          ∧ strContains (pyLower text) "from" = true)
        ∨ 2 ≤ sql_keywords.countP (fun keyword => strContains (pyLower text) keyword)))
    ∧ ((strContains (pyLower text) "select" = true ∧ strContains (pyLower text) "from" = true) →
        is_sql_query text = true) := by
  have hiff : is_sql_query text = true ↔
      ((startsWithSelect (pyLower text) = true
          ∧ strContains (pyLower text) "from" = true)
        ∨ 2 ≤ sql_keywords.countP (fun keyword => strContains (pyLower text) keyword)) := by
    simp only [is_sql_query]
    split_ifs with h1 h2
    · simp only [Bool.and_eq_true] at h1
      simp [h1]
    · simp [h2]
    · simp only [Bool.and_eq_true] at h1
      simp [h1, h2]
  refine ⟨hiff, fun hboth => hiff.mpr (Or.inr ?_)⟩
  obtain ⟨hsel, hfrom⟩ := hboth
  simp only [sql_keywords, List.countP_cons, List.countP_nil, hsel, hfrom]
  split_ifs <;> omega

/-- Witness for C1 at a concrete input: "SELECT name FROM servers" contains
both keywords and is detected as literal SQL. -/
theorem c1_witness :
    is_sql_query "SELECT name FROM servers" = true :=
  (c1_is_sql_query_spec "SELECT name FROM servers").2 ⟨by decide, by decide⟩

/-! ## Conversation.is_greeting (src/chatbot/conversation.py lines 32-58)

The five anchored regular expressions are compiled to literal/whitespace
token sequences followed by a terminator character class. -/

/-- One element of a compiled greeting pattern: a literal string or a
single whitespace character (`\s`). -/
inductive PatTok where
  | lit (s : String)
  | ws
deriving DecidableEq

/-- Match a token sequence against a prefix of the character list,
returning the unmatched remainder on success. -/
def matchToks : List PatTok → List Char → Option (List Char)
  | [], cs => some cs
  | PatTok.lit w :: ts, cs =>
    if w.data.isPrefixOf cs then matchToks ts (cs.drop w.data.length) else none
  | PatTok.ws :: _, [] => none
  | PatTok.ws :: ts, c :: cs =>
    if c.isWhitespace then matchToks ts cs else none

/-- Terminator class `(\s|$|!)` used by the greeting patterns. -/
def termWsBangEnd : List Char → Bool
  | [] => true
  | c :: _ => c.isWhitespace || c = '!'

/-- Terminator class `(\?|\s|$)` used by the question-like patterns. -/
def termQWsEnd : List Char → Bool
  | [] => true
  | c :: _ => c = '?' || c.isWhitespace

/-- A compiled greeting regex: token sequence plus a flag selecting the
`(\?|\s|$)` terminator instead of `(\s|$|!)`. -/
structure GreetPat where
  toks : List PatTok
  qmark : Bool
deriving DecidableEq

/-- The five greeting regexes of `Conversation.is_greeting`, with
alternations expanded. -/
def greeting_patterns : List GreetPat :=
  [⟨[.lit "hi"], false⟩, ⟨[.lit "hello"], false⟩, ⟨[.lit "hey"], false⟩,
   ⟨[.lit "greetings"], false⟩, ⟨[.lit "howdy"], false⟩,
   ⟨[.lit "good", .ws, .lit "morning"], false⟩,
   ⟨[.lit "good", .ws, .lit "afternoon"], false⟩,
   ⟨[.lit "good", .ws, .lit "evening"], false⟩,
   ⟨[.lit "good", .ws, .lit "day"], false⟩,
   ⟨[.lit "how", .ws, .lit "are", .ws, .lit "you"], true⟩,
   ⟨[.lit "how", .ws, .lit "is", .ws, .lit "it", .ws, .lit "going"], true⟩,
   ⟨[.lit "how", .ws, .lit "are", .ws, .lit "things"], true⟩,
   ⟨[.lit "whats", .ws, .lit "up"], true⟩,
   ⟨[.lit ("what" ++ apos ++ "s"), .ws, .lit "up"], true⟩,
   ⟨[.lit "nice", .ws, .lit "to", .ws, .lit "meet", .ws, .lit "you"], false⟩,
   ⟨[.lit "nice", .ws, .lit "to", .ws, .lit "see", .ws, .lit "you"], false⟩]

/-- Whether one compiled pattern matches at the start of the text. -/
def matchGreetPat (p : GreetPat) (cs : List Char) : Bool :=
  match matchToks p.toks cs with
  | some rest => if p.qmark then termQWsEnd rest else termWsBangEnd rest
  | none => false

/-- `re.search` over the five anchored greeting patterns. -/
def greeting_regex_match (text_lower : String) : Bool :=
  greeting_patterns.any (fun p => matchGreetPat p text_lower.data)

/-- `Conversation.is_greeting`: any anchored greeting pattern matches the
lowercased text, or the input has at most 3 whitespace-separated tokens. -/
def is_greeting (text : String) : Bool :=
  if greeting_regex_match (pyLower text) then true
  else if (pyTokens text).length ≤ 3 then true
  else false

/-! ## DataCenterChatbot.process_input greeting gate (src/app.py lines 53-66) -/

/-- The greeting vocabulary of `DataCenterChatbot.process_input`. -/
def greetings_vocab : List String :=
  ["hi", "hello", "hey", "greetings", "good morning", "good afternoon", "good evening"]

/-- The farewell vocabulary of `DataCenterChatbot.process_input`. -/
def farewells_vocab : List String :=
  ["bye", "goodbye", "see you", "talk to you later", "thanks"]

/-- The canned greeting answer of `DataCenterChatbot.process_input`. -/
def app_greeting_reply : String :=
  "Hello! I" ++ apos ++ "m your data center assistant. I can provide information about our data centers, servers, and infrastructure. How can I help you today?"

/-- The canned farewell answer of `DataCenterChatbot.process_input`. -/
def app_farewell_reply : String :=
  "Goodbye! Feel free to chat again when you need information about our data centers."

/-- The greeting/farewell gate at the top of
`DataCenterChatbot.process_input`: after lowercasing and stripping, a
message of at most 3 tokens that exactly equals a vocabulary member gets a
canned reply; `none` means the gate falls through to the rule table. -/
def app_greeting_gate (user_input : String) : Option String :=
  let u := pyStrip (pyLower user_input)
  if (pyTokens u).length ≤ 3 && greetings_vocab.any (fun greeting => u == greeting) then
    some app_greeting_reply
  else if (pyTokens u).length ≤ 3 && farewells_vocab.any (fun farewell => u == farewell) then
    some app_farewell_reply
  else
    none

/-- C2 counterexample: the 3-token question "how many servers" does not
equal any member of the greeting/farewell vocabulary, yet
`Conversation.is_greeting` classifies it as a greeting, so the claimed
"if and only if" fails on the code. -/
theorem c2_counterexample :
    is_greeting "how many servers" = true
    ∧ (pyTokens (pyStrip "how many servers")).length ≤ 3
    ∧ (greetings_vocab ++ farewells_vocab).any
        (fun v => pyStrip (pyLower "how many servers") == v) = false := by
  refine ⟨by decide, by decide, by decide⟩

/-- C2 amended: the exact-equality rule holds for the app.py gate (canned
reply iff at most 3 tokens and exact vocabulary membership, checked before
the rule table), while `Conversation.is_greeting` instead classifies as
Greeting whenever a greeting regex matches or the input has at most 3
tokens, so short non-vocabulary questions also take the Greeting branch. -/
theorem c2_amended_greeting_classification (s : String) :
    (app_greeting_gate s ≠ none ↔
      ((pyTokens (pyStrip (pyLower s))).length ≤ 3
        ∧ (greetings_vocab ++ farewells_vocab).any
            (fun v => pyStrip (pyLower s) == v) = true))
    ∧ ((pyTokens s).length ≤ 3 → is_greeting s = true) := by
  constructor
  · simp only [app_greeting_gate, List.any_append, Bool.or_eq_true, Bool.and_eq_true,
      decide_eq_true_eq]
    split_ifs with h1 h2
    · simp only [ne_eq, reduceCtorEq, not_false_eq_true, true_iff]
      exact ⟨h1.1, Or.inl h1.2⟩
    · simp only [ne_eq, reduceCtorEq, not_false_eq_true, true_iff]
      exact ⟨h2.1, Or.inr h2.2⟩
    · simp only [ne_eq, not_true_eq_false, false_iff]
      rintro ⟨hlen, hmem | hmem⟩
      · exact h1 ⟨hlen, hmem⟩
      · exact h2 ⟨hlen, hmem⟩
  · intro hlen
    simp only [is_greeting]
    split_ifs <;> simp_all

/-- Witness for C2's amended theorem at the concrete input "hi": the gate
fires, and the conversation classifier also returns true. -/
theorem c2_amended_witness :
    app_greeting_gate "hi" ≠ none ∧ is_greeting "hi" = true :=
  ⟨(c2_amended_greeting_classification "hi").1.mpr ⟨by decide, by decide⟩,
   (c2_amended_greeting_classification "hi").2 (by decide)⟩

/-! ## LLMManager.generate (src/chatbot/llm.py lines 61-102)

The HTTP POST to the completion endpoint is an external boundary; its
possible outcomes are modelled explicitly: a transport failure
(`requests.RequestException`), or a response carrying a status code, a
body text, and the result of `response.json().get("response", "")`
(which itself can raise while parsing). -/

/-- Outcome of `requests.post` plus body decoding, as observed by
`LLMManager.generate`. -/
inductive HttpOutcome where
  | transportError (msg : String)
  | response (status : Nat) (text : String) (respField : Except String String)

/-- `LLMManager.generate`: non-200 status or any raised error becomes a
descriptive error string; a 200 response yields the stripped
`response` field. -/
def generate (outcome : HttpOutcome) : String :=
  match outcome with
  | .transportError msg => "Error: " ++ msg
  | .response status _text respField =>
    if status ≠ 200 then
      "Error: Failed to generate response (status code " ++ toString status ++ ")"
    else
      match respField with
      | .error msg => "Error: " ++ msg
      | .ok generated_text => pyStrip generated_text

/-- C5: `generate` never raises — it is a total function into `String` —
and on a non-2xx status or transport error it returns a descriptive error
string as its value, while a 200 response with a parseable body returns
the stripped response text. -/
theorem c5_generate_never_raises :
    (∀ msg, generate (.transportError msg) = "Error: " ++ msg)
    ∧ (∀ status text respField, ¬(200 ≤ status ∧ status < 300) →
        generate (.response status text respField) =
          "Error: Failed to generate response (status code " ++ toString status ++ ")")
    ∧ (∀ text generated_text,
        generate (.response 200 text (.ok generated_text)) = pyStrip generated_text)
    ∧ (∀ text msg, generate (.response 200 text (.error msg)) = "Error: " ++ msg) := by
  refine ⟨fun msg => rfl, fun status text respField hs => ?_, fun text g => rfl, fun text m => rfl⟩
  have h200 : status ≠ 200 := by omega
  simp [generate, h200]

/-- Witness for C5 at concrete outcomes: a 500 status and a transport
failure both produce error-string values. -/
theorem c5_witness :
    generate (.response 500 "boom" (.ok "ignored")) =
      "Error: Failed to generate response (status code 500)" :=
  c5_generate_never_raises.2.1 500 "boom" (.ok "ignored") (by omega)

/-! ## LLMManager.generate_with_retries (src/chatbot/llm.py lines 104-126)

`generate` is modelled per attempt as a possibly-raising oracle
(`Except.error` = an exception escaping `generate`), matching the
`try/except` structure of the loop. The trace records the returned value
(`none` = the loop body never ran and Python returned `None`), the
`time.sleep` durations, and the attempt indices actually executed. -/

/-- The apologetic message built by the f-string of the source. -/
def retry_apology (max_retries : Nat) : String :=
  "I" ++ apos ++ "m sorry, I" ++ apos ++
    "m having trouble generating a response after " ++ toString max_retries ++ " attempts."

/-- Observable behaviour of one `generate_with_retries` call. -/
structure RetryTrace where
  result : Option String
  sleeps : List Nat
  calls : List Nat
deriving DecidableEq

/-- The `for attempt in range(max_retries)` loop body of
`generate_with_retries`. -/
def run_attempts (gen : Nat → Except String String) (max_retries : Nat) :
    List Nat → RetryTrace
  | [] => ⟨none, [], []⟩
  | attempt :: rest =>
    match gen attempt with
    | .ok s => ⟨some s, [], [attempt]⟩
    | .error _ =>
      if attempt < max_retries - 1 then
        let t := run_attempts gen max_retries rest
        ⟨t.result, 2 ^ attempt :: t.sleeps, attempt :: t.calls⟩
      else
        ⟨some (retry_apology max_retries), [], [attempt]⟩

/-- `LLMManager.generate_with_retries`. -/
def generate_with_retries (gen : Nat → Except String String) (max_retries : Nat) :
    RetryTrace :=
  run_attempts gen max_retries (List.range max_retries)

/-- All-failure unfolding of the retry loop over `range' a n`. -/
theorem run_attempts_all_fail (gen : Nat → Except String String) (m : Nat) :
    ∀ n a, 1 ≤ n → a + n = m →
    (∀ i, a ≤ i → i < m → ∃ e, gen i = .error e) →
    run_attempts gen m (List.range' a n) =
      ⟨some (retry_apology m), (List.range' a (n - 1)).map (2 ^ ·), List.range' a n⟩ := by
  intro n
  induction n with
  | zero => omega
  | succ k ih =>
    intro a hn hm hfail
    obtain ⟨e, he⟩ := hfail a (le_refl a) (by omega)
    rcases Nat.eq_zero_or_pos k with hk | hk
    · subst hk
      have ha : ¬(a < m - 1) := by omega
      simp [List.range'_succ, run_attempts, he, ha]
    · have ha : a < m - 1 := by omega
      have hrec := ih (a + 1) (by omega) (by omega)
        (fun i hi1 hi2 => hfail i (by omega) hi2)
      simp only [List.range'_succ, run_attempts, he, if_pos ha, hrec]
      have hk1 : k + 1 - 1 = (k - 1) + 1 := by omega
      rw [hk1, List.range'_succ]
      simp

/-- First-success unfolding of the retry loop over `range' a n`. -/
theorem run_attempts_first_success (gen : Nat → Except String String) (m : Nat) :
    ∀ n a k v, a ≤ k → k < a + n → a + n = m →
    (∀ i, a ≤ i → i < k → ∃ e, gen i = .error e) → gen k = .ok v →
    run_attempts gen m (List.range' a n) =
      ⟨some v, (List.range' a (k - a)).map (2 ^ ·), List.range' a (k - a + 1)⟩ := by
  intro n
  induction n with
  | zero => omega
  | succ j ih =>
    intro a k v hak hkn hm hfail hok
    rcases Nat.eq_or_lt_of_le hak with hek | hlt
    · subst hek
      simp [List.range'_succ, run_attempts, hok, List.range'_one]
    · obtain ⟨e, he⟩ := hfail a (le_refl a) hlt
      have ha : a < m - 1 := by omega
      have hrec := ih (a + 1) k v (by omega) (by omega) (by omega)
        (fun i hi1 hi2 => hfail i (by omega) hi2) hok
      simp only [List.range'_succ, run_attempts, he, if_pos ha, hrec]
      have h1 : k - a = (k - (a + 1)) + 1 := by omega
      rw [h1]
      simp [List.range'_succ]

/-- C6: for every `max_retries ≥ 1`, if every attempt of `generate`
fails then all `max_retries` attempts run, the sleeps between consecutive
failing attempts are `2^0, 2^1, …` (each double the previous), and the
fixed apologetic message is returned; if the first success is at attempt
`k`, exactly attempts `0..k` run, the sleeps are `2^0, …, 2^(k-1)`, and
the successful value is returned. -/
theorem c6_generate_with_retries_spec (gen : Nat → Except String String)
    (max_retries : Nat) (h : 1 ≤ max_retries) :
    ((∀ i, i < max_retries → ∃ e, gen i = .error e) →
      generate_with_retries gen max_retries =
        ⟨some (retry_apology max_retries),
         (List.range (max_retries - 1)).map (2 ^ ·), List.range max_retries⟩)
    ∧ (∀ k v, k < max_retries → (∀ i, i < k → ∃ e, gen i = .error e) →
        gen k = .ok v →
        generate_with_retries gen max_retries =
          ⟨some v, (List.range k).map (2 ^ ·), List.range (k + 1)⟩) := by
  constructor
  · intro hfail
    have := run_attempts_all_fail gen max_retries max_retries 0 h (by omega)
      (fun i _ hi2 => hfail i hi2)
    simpa [generate_with_retries, List.range_eq_range'] using this
  · intro k v hk hfail hok
    have := run_attempts_first_success gen max_retries max_retries 0 k v
      (Nat.zero_le k) (by omega) (by omega) (fun i _ hi2 => hfail i hi2) hok
    simpa [generate_with_retries, List.range_eq_range'] using this

/-- The spec scenario's backend: attempts 0 and 1 raise, attempt 2
returns "OK". -/
def genTwoFailures : Nat → Except String String :=
  fun i => if i < 2 then .error "connection reset" else .ok "OK"

/-- Witness for C6: with two failures then success and `max_retries = 3`,
the call returns "OK" after sleeping 1 then 2 seconds (the second interval
double the first). -/
theorem c6_witness :
    generate_with_retries genTwoFailures 3 = ⟨some "OK", [1, 2], [0, 1, 2]⟩ := by
  have h := (c6_generate_with_retries_spec genTwoFailures 3 (by omega)).2 2 "OK"
    (by omega) (fun i hi => ⟨"connection reset", by simp [genTwoFailures, hi]⟩)
    (by simp [genTwoFailures])
  simpa using h

/-- C10: with `max_retries = 0` the `range` is empty, so no attempt is
executed, no sleep happens, and the function returns Python's implicit
`None` rather than a string. -/
theorem c10_zero_retries_returns_none (gen : Nat → Except String String) :
    generate_with_retries gen 0 = ⟨none, [], []⟩ := rfl

/-! ## LLMManager.generate_structured_output (src/chatbot/llm.py lines 128-175)

`json.loads` is an external library call, modelled by an abstract
`parse : String → Option J` (`none` = `json.JSONDecodeError`, at which
point the source logs and returns `None`). -/

/-- The opening-brace character. -/
def lbrace : Char := Char.ofNat 123

/-- The closing-brace character. -/
def rbrace : Char := Char.ofNat 125

/-- Python's `str.find(c)` for one character: index of the first
occurrence, `none` for -1. -/
def findCharIdx (c : Char) : List Char → Option Nat
  | [] => none
  | x :: rest => if x == c then some 0 else (findCharIdx c rest).map (· + 1)

/-- Python's `str.rfind(c)` for one character: index of the last
occurrence, `none` for -1. -/
def rfindCharIdx (c : Char) (l : List Char) : Option Nat :=
  match findCharIdx c l.reverse with
  | none => none
  | some i => some (l.length - 1 - i)

/-- Python's `s[start:stop]` slice on character indices. -/
def pySlice (s : String) (start stop : Nat) : String :=
  String.mk ((s.data.drop start).take (stop - start))

/-- The JSON-extraction stages of `generate_structured_output`: fenced
```json block, then any fenced block, then the widest `{...}` substring;
`none` means the source falls back to parsing the whole response. -/
def extract_json_text (response : String) : Option String :=
  if strContains response "```json" then
    match pySplitOn response "```json" with
    | _ :: block :: _ => some (pyStrip ((pySplitOn block "```").headD ""))
    | _ => none
  else if strContains response "```" then
    match pySplitOn response "```" with
    | _ :: block :: _ => some (pyStrip block)
    | _ => none
  else
    match findCharIdx lbrace response.data, rfindCharIdx rbrace response.data with
    | some start_idx, some end_idx =>
      if start_idx < end_idx then some (pySlice response start_idx (end_idx + 1))
      else none
    | _, _ => none

/-- `LLMManager.generate_structured_output` applied to the text returned
by `generate`: extract a JSON candidate and parse it; an empty or missing
candidate falls back to parsing the whole response (Python truthiness of
`json_text`); a parse failure yields `None`. -/
def generate_structured_output {J : Type} (parse : String → Option J)
    (response : String) : Option J :=
  match extract_json_text response with
  | some json_text => if json_text = "" then parse response else parse json_text
  | none => parse response

/-- If a concatenation is a prefix, so is its left part. -/
theorem isPrefixOf_of_append_isPrefixOf (p q : List Char) :
    ∀ l, (p ++ q).isPrefixOf l = true → p.isPrefixOf l = true := by
  induction p with
  | nil => intro l _; simp [List.isPrefixOf]
  | cons a p ih =>
    intro l h
    cases l with
    | nil => simp [List.isPrefixOf] at h
    | cons b l' =>
      simp only [List.cons_append, List.isPrefixOf, Bool.and_eq_true] at h ⊢
      exact ⟨h.1, ih l' h.2⟩

/-- Substring containment is monotone under extending the pattern on the
right. -/
theorem charsInfix_of_append_charsInfix (p q : List Char) :
    ∀ l, charsInfix (p ++ q) l = true → charsInfix p l = true := by
  intro l
  induction l with
  | nil =>
    intro h
    simp only [charsInfix] at h ⊢
    exact isPrefixOf_of_append_isPrefixOf p q [] h
  | cons c rest ih =>
    intro h
    simp only [charsInfix, Bool.or_eq_true] at h ⊢
    rcases h with h | h
    · exact Or.inl (isPrefixOf_of_append_isPrefixOf p q _ h)
    · exact Or.inr (ih h)

/-- A text containing "```json" also contains "```". -/
theorem strContains_backticks_of_json (response : String)
    (h : strContains response "```json" = true) :
    strContains response "```" = true := by
  have hsplit : ("```json").data = ("```").data ++ ("json").data := by decide
  unfold strContains at h ⊢
  rw [hsplit] at h
  exact charsInfix_of_append_charsInfix _ _ _ h

/-- A sample LLM response wrapping valid JSON in a fenced json block. -/
def json_example_response : String :=
  "```json\n\x7b\"a\": 1\x7d\n```"

/-- The JSON text extracted from `json_example_response`. -/
def json_example_inner : String := "\x7b\"a\": 1\x7d"

/-- C7: structured generation tries the fenced-```json block first, then
any fenced block, then the widest brace substring, else the whole
response; if parsing fails at every stage the result is `none` (no
exception is possible: the function is total into `Option`), and a
response wrapping valid JSON in a fenced json block hands exactly that
JSON text to the parser. -/
theorem c7_generate_structured_output_spec {J : Type}
    (parse : String → Option J) (response : String) :
    ((∀ s, parse s = none) → generate_structured_output parse response = none)
    ∧ (strContains response "```" = false → findCharIdx lbrace response.data = none →
        generate_structured_output parse response = parse response)
    ∧ (generate_structured_output parse json_example_response = parse json_example_inner) := by
  refine ⟨fun hparse => ?_, fun h3 hbrace => ?_, ?_⟩
  · cases h : extract_json_text response with
    | none => simp [generate_structured_output, h, hparse]
    | some t => simp [generate_structured_output, h, hparse]
  · have hjson : strContains response "```json" = false := by
      cases hj : strContains response "```json"
      · rfl
      · rw [strContains_backticks_of_json response hj] at h3
        exact absurd h3 (by simp)
    simp [generate_structured_output, extract_json_text, hjson, h3, hbrace]
  · rfl

/-- Witness for C7: a parser that always fails makes structured
generation return `none` on a plain response. -/
theorem c7_witness :
    generate_structured_output (fun _ => (none : Option Nat)) "not json at all" = none :=
  (c7_generate_structured_output_spec (fun _ => (none : Option Nat)) "not json at all").1
    (fun _ => rfl)

/-! ## EmbeddingManager (src/chatbot/embedding.py)

The FAISS index is modelled as the ordered list of (text, metadata)
documents it holds; `add_texts` appends, `save_local` is the external
persistence boundary and has no effect on the logical state. -/

/-- A scalar cell of a SQL result row. -/
inductive Scalar where
  | str (v : String)
  | int (v : Int)
  | null
deriving DecidableEq

/-- A result row: ordered mapping column name → scalar, as produced by
`DatabaseManager.execute_query`. -/
abbrev Row := List (String × Scalar)

/-- Python `str(value)` on a scalar. -/
def scalarStr : Scalar → String
  | .str v => v
  | .int v => toString v
  | .null => "None"

/-- Python `repr(value)` on a scalar (as used inside `str()` of a
list/dict). -/
def scalarRepr : Scalar → String
  | .str v => apos ++ v ++ apos
  | .int v => toString v
  | .null => "None"

/-- Python `str()` rendering of one row dictionary. -/
def rowRepr (row : Row) : String :=
  "\x7b" ++
    String.intercalate ", "
      (row.map (fun kv => apos ++ kv.1 ++ apos ++ ": " ++ scalarRepr kv.2)) ++
  "\x7d"

/-- Python `str()` rendering of a list of row dictionaries. -/
def rowsRepr (rows : List Row) : String :=
  "[" ++ String.intercalate ", " (rows.map rowRepr) ++ "]"

/-- The FAISS vector store state: the documents it holds, in insertion
order. -/
structure VectorStore where
  docs : List (String × List (String × String))
deriving DecidableEq

/-- `FAISS.add_texts`: append each (text, metadata) pair; the returned
ids are modelled by the new document indices. -/
def VectorStore.add_texts (vs : VectorStore) (texts : List String)
    (metadatas : List (List (String × String))) : VectorStore × List Nat :=
  (⟨vs.docs ++ texts.zip metadatas⟩, (List.range texts.length).map (vs.docs.length + ·))

/-- `EmbeddingManager.add_texts_to_vector_store`: empty input is a no-op
returning `[]`; otherwise add and persist. -/
def add_texts_to_vector_store (vs : VectorStore) (texts : List String)
    (metadatas : List (List (String × String))) : VectorStore × List Nat :=
  if texts = [] then (vs, [])
  else vs.add_texts texts metadatas

/-- The per-row text built by
`EmbeddingManager.add_sql_results_to_vector_store`. -/
def sql_result_text (query : String) (i : Nat) (result : Row) : String :=
  result.foldl (fun acc kv => acc ++ kv.1 ++ ": " ++ scalarStr kv.2 ++ "\n")
    ("Query: " ++ query ++ "\nResult " ++ toString (i + 1) ++ ":\n")

/-- `EmbeddingManager.add_sql_results_to_vector_store`: one document per
result row, each tagged with source "sql_result". -/
def add_sql_results_to_vector_store (vs : VectorStore) (query : String)
    (results : List Row) : VectorStore × List Nat :=
  if results = [] then (vs, [])
  else
    let texts := results.enum.map (fun p => sql_result_text query p.1 p.2)
    let metadatas := (List.range texts.length).map
      (fun i => [("source", "sql_result"), ("query", query), ("result_index", toString i)])
    add_texts_to_vector_store vs texts metadatas

/-- A (document, score) pair returned by
`FAISS.similarity_search_with_score`. -/
structure SearchHit where
  page_content : String
  metadata : List (String × String)
  score : Int
deriving DecidableEq

/-- One entry of the list returned by
`EmbeddingManager.similarity_search`. -/
structure SearchResult where
  content : String
  metadata : List (String × String)
  score : Int
deriving DecidableEq

/-- `EmbeddingManager.similarity_search`: converts the raw hits to result
dictionaries; if the underlying search raises, the `except` clause logs
and RE-RAISES the failure (it does not return an empty list). -/
def similarity_search (raw : Except String (List SearchHit)) :
    Except String (List SearchResult) :=
  match raw with
  | .error e => .error e
  | .ok documents => .ok (documents.map (fun doc => ⟨doc.page_content, doc.metadata, doc.score⟩))

/-! ## Prompt templates (src/chatbot/prompts.py), applied via `.format` -/

/-- `SYSTEM_PROMPT`. -/
def SYSTEM_PROMPT : String :=
  "\nYou are a helpful AI assistant specialized in answering questions about data centers. \nYou have access to a SQLite database containing information about data centers, servers, \nnetwork devices, power usage, and maintenance logs.\n\nWhen answering questions:\n1. Use the provided database schema and context to answer accurately\n2. If SQL results are provided, use them to formulate your answer\n3. If you don" ++ apos ++ "t know the answer, admit it instead of making up information\n4. Provide clear, concise responses focusing on the facts in the data\n5. For numerical data, use appropriate units (kW, TB, etc.)\n"

/-- `SQL_GENERATION_PROMPT.format(schema=…, question=…)`. -/
def SQL_GENERATION_PROMPT_format (schema question : String) : String :=
  "\nYou are a database expert who converts natural language questions into SQL queries.\n\nDatabase Schema:\n" ++
  schema ++
  "\n\nYour task is to write a correct SQL query that answers the following question:\n" ++
  question ++
  "\n\nRules:\n1. Write only the SQL query without any explanation.\n2. Ensure the query is valid for SQLite syntax.\n3. Use only the tables and columns described in the schema.\n4. Make the query as simple and efficient as possible.\n5. For aggregations, use appropriate column names (e.g., COUNT(*) AS count).\n6. If the question cannot be answered with the available schema, just respond with \"Cannot answer with available schema\".\n\nSQL Query:\n"

/-- `RAG_PROMPT.format(schema=…, context=…, question=…)`. -/
def RAG_PROMPT_format (schema context question : String) : String :=
  "\n" ++ schema ++
  "\n\nI" ++ apos ++ "ll answer your question based on the following context information:\n\n" ++
  context ++
  "\n\nQuestion: " ++ question ++
  "\n\nLet me analyze the information and provide a comprehensive answer:\n"

/-- `CONVERSATIONAL_PROMPT.format(...)`. -/
def CONVERSATIONAL_PROMPT_format
    (system_prompt conversation_history context sql_info rag_answer question : String) :
    String :=
  "\n" ++ system_prompt ++
  "\n\nPrevious conversation:\n" ++ conversation_history ++
  "\n\nContext information:\n" ++ context ++
  "\n\nSQL Information:\n" ++ sql_info ++
  "\n\nRAG-generated answer:\n" ++ rag_answer ++
  "\n\nCurrent question: " ++ question ++
  "\n\nPlease provide a conversational response that:\n1. Addresses the current question using the information provided\n2. Maintains a friendly, helpful tone\n3. Acknowledges any previous conversation context if relevant\n4. Provides accurate information based on the database and context\n5. Avoids technical jargon unless necessary\n"

/-- `GREETING_PROMPT.format(user_input=…)`. -/
def GREETING_PROMPT_format (user_input : String) : String :=
  "\nYou are a friendly AI assistant specialized in data center information.\n\nCurrent user input: " ++
  user_input ++
  "\n\nIf this is a greeting or small talk:\n1. Respond in a friendly, concise manner\n2. Keep your response brief (1-2 sentences)\n3. Offer to help with data center questions\n\nIf this appears to be a question about data centers:\n1. Indicate that you" ++ apos ++ "re ready to help answer their data center question\n2. Provide a brief hint about what kind of data center information you can provide\n"

/-! ## DatabaseManager.natural_language_to_sql_query
     (src/chatbot/database.py lines 246-277) -/

/-- The rule-based natural-language-to-SQL conversion. -/
def natural_language_to_sql_query (natural_language : String) : Option String :=
  let nl := pyLower natural_language
  if strContains nl "list all data centers" || strContains nl "show all data centers" then
    some "SELECT * FROM data_centers"
  else if strContains nl "list all servers" || strContains nl "show all servers" then
    some "SELECT * FROM servers"
  else if strContains nl "count servers" then
    some "SELECT COUNT(*) as server_count FROM servers"
  else if strContains nl "average power usage" || strContains nl "avg power" then
    some "SELECT AVG(power_kw) as avg_power FROM power_usage"
  else
    none

/-! ## RAGEngine.execute_rag_query (src/chatbot/rag.py lines 130-229)

The external collaborators are injected: `db` is
`DatabaseManager.execute_query` (`Except.error` = the SQLite exception),
`searchOutcome` the raw FAISS search outcome for the current question,
`llm` is `LLMManager.generate` (total per C5). The event trace records,
in order, every database query, vector-store read/write, and LLM call
the request performs. -/

/-- An observable side effect of one request. -/
inductive Event where
  | dbQuery (sql : String)
  | vectorSearch
  | vectorAdd (n : Nat)
  | llmCall
deriving DecidableEq

/-- The injected collaborators of `RAGEngine`. -/
structure RagEnv where
  db : String → Except String (List Row)
  searchOutcome : Except String (List SearchHit)
  llm : String → String
  schema_info : String

/-- First index of `pat` in `s`, Python `str.find`. -/
def findSubstrIdx (s pat : String) : Option Nat :=
  (List.range (s.data.length + 1)).find? (fun i => pat.data.isPrefixOf (s.data.drop i))

/-- The database-relevance vocabulary of `execute_rag_query`. -/
def db_related_terms : List String :=
  ["database", "data", "query", "show", "list", "find", "how many",
   "average", "datacenter", "server", "power", "network"]

/-- `RAGEngine.generate_sql_query`: rule-based conversion first, then LLM
synthesis with extraction from a ```sql block, any fenced block, the
first "SELECT"/"select" suffix, or the raw response. Also returns the
events performed. -/
def generate_sql_query (env : RagEnv) (question : String) : String × List Event :=
  match natural_language_to_sql_query question with
  | some query => (query, [])
  | none =>
    let prompt := SQL_GENERATION_PROMPT_format env.schema_info question
    let response := env.llm prompt
    let fromBlocks : Option String :=
      if strContains response "```sql" then
        match pySplitOn response "```sql" with
        | _ :: block :: _ => some (pyStrip ((pySplitOn block "```").headD ""))
        | _ => none
      else if strContains response "```" then
        match pySplitOn response "```" with
        | _ :: block :: _ => some (pyStrip block)
        | _ => none
      else none
    match fromBlocks with
    | some query => (query, [.llmCall])
    | none =>
      if strContains response "SELECT" || strContains response "select" then
        let select_pos :=
          if strContains response "SELECT" then (findSubstrIdx response "SELECT").getD 0
          else (findSubstrIdx response "select").getD 0
        (pyStrip (String.mk (response.data.drop select_pos)), [.llmCall])
      else
        (response, [.llmCall])

/-- One labeled context item fed to prompt assembly. -/
structure CtxItem where
  content : String
  source : String
deriving DecidableEq

/-- The `"\n\n".join(f"Context {i+1} ({source}):\n{content}")` rendering. -/
def context_text_of (context : List CtxItem) : String :=
  String.intercalate "\n\n" (context.enum.map
    (fun p => "Context " ++ toString (p.1 + 1) ++ " (" ++ p.2.source ++ "):\n" ++ p.2.content))

/-- The dictionary returned by `execute_rag_query`. -/
structure RagResult where
  query_type : String
  sql_query : Option String
  sql_results : List Row
  error : Option String
  context : List CtxItem
  answer : String
deriving DecidableEq

/-- Result, new vector-store state and event trace of one
`execute_rag_query` call. -/
structure RagOutcome where
  result : RagResult
  vs : VectorStore
  events : List Event
deriving DecidableEq

/-- Step 4 of `execute_rag_query`: assemble the RAG prompt and generate
the final answer. -/
def rag_finish (env : RagEnv) (question : String) (context : List CtxItem)
    (sql_query : Option String) (sql_results : List Row) (vs : VectorStore)
    (events : List Event) : RagOutcome :=
  let rag_prompt := RAG_PROMPT_format env.schema_info (context_text_of context) question
  { result := { query_type := "rag", sql_query := sql_query, sql_results := sql_results,
                error := none, context := context, answer := env.llm rag_prompt },
    vs := vs, events := events ++ [.llmCall] }

/-- `RAGEngine.execute_rag_query`. -/
def execute_rag_query (env : RagEnv) (vs : VectorStore) (question : String) : RagOutcome :=
  if is_sql_query question then
    match env.db question with
    | .ok results =>
      let added := add_sql_results_to_vector_store vs question results
      { result := { query_type := "direct_sql", sql_query := some question,
                    sql_results := results, error := none,
                    context := [⟨rowsRepr results, "direct_sql_results"⟩],
                    answer := "SQL Query Results: " ++ rowsRepr results },
        vs := added.1, events := [.dbQuery question, .vectorAdd results.length] }
    | .error e =>
      { result := { query_type := "direct_sql_error", sql_query := some question,
                    sql_results := [], error := some e, context := [],
                    answer := "Error executing SQL query: " ++ e },
        vs := vs, events := [.dbQuery question] }
  else
    let context : List CtxItem :=
      match similarity_search env.searchOutcome with
      | .ok vector_results =>
        vector_results.map
          (fun item => ⟨item.content, (item.metadata.lookup "source").getD "unknown"⟩)
      | .error _ => []
    let is_db_question := db_related_terms.any (fun term => strContains (pyLower question) term)
    if is_db_question then
      let gq := generate_sql_query env question
      match env.db gq.1 with
      | .ok sql_results =>
        let added := add_sql_results_to_vector_store vs gq.1 sql_results
        rag_finish env question
          (context ++ [⟨"SQL Query: " ++ gq.1 ++ "\nResults: " ++ rowsRepr sql_results,
                        "generated_sql_results"⟩])
          (some gq.1) sql_results added.1
          (Event.vectorSearch :: gq.2 ++ [.dbQuery gq.1, .vectorAdd sql_results.length])
      | .error e =>
        rag_finish env question
          (context ++ [⟨"Failed to execute SQL query due to error: " ++ e, "sql_error"⟩])
          (some gq.1) [] vs
          (Event.vectorSearch :: gq.2 ++ [.dbQuery gq.1])
    else
      rag_finish env question context none [] vs [Event.vectorSearch]

/-! ## Conversation (src/chatbot/conversation.py lines 60-99) -/

/-- `Conversation.handle_greeting`: one LLM call on the greeting
prompt. -/
def handle_greeting (env : RagEnv) (text : String) : String :=
  env.llm (GREETING_PROMPT_format text)

/-- `RAGEngine.answer_conversational_query`: run the RAG query, render
the last 5 exchanges, and generate the conversational answer. -/
def answer_conversational_query (env : RagEnv) (vs : VectorStore)
    (question : String) (conversation_history : List (String × String)) :
    String × VectorStore × List Event :=
  let rag := execute_rag_query env vs question
  let recent := conversation_history.drop (conversation_history.length - 5)
  let history_text := String.join (recent.map
    (fun exchange => "User: " ++ exchange.1 ++ "\nAssistant: " ++ exchange.2 ++ "\n\n"))
  let ctx_text := context_text_of rag.result.context
  let sql_info :=
    match rag.result.sql_query with
    | some q =>
      if q = "" then ""
      else "SQL Query: " ++ q ++ "\nSQL Results: " ++ rowsRepr rag.result.sql_results
    | none => ""
  let prompt := CONVERSATIONAL_PROMPT_format SYSTEM_PROMPT history_text ctx_text
    sql_info rag.result.answer question
  (env.llm prompt, rag.vs, rag.events ++ [.llmCall])

/-- The caller-owned state of a `Conversation`. -/
structure ConvState where
  history : List (String × String)
  vs : VectorStore

/-- Observable outcome of one `Conversation.process_input` call. -/
structure StepOutcome where
  response : String
  state : ConvState
  events : List Event

/-- `Conversation.process_input`: greeting short-circuit or RAG path,
then append exactly one exchange to the history. -/
def process_input (env : RagEnv) (st : ConvState) (user_input : String) : StepOutcome :=
  if is_greeting user_input then
    let response := handle_greeting env user_input
    ⟨response, ⟨st.history ++ [(user_input, response)], st.vs⟩, [.llmCall]⟩
  else
    let acq := answer_conversational_query env st.vs user_input st.history
    ⟨acq.1, ⟨st.history ++ [(user_input, acq.1)], acq.2.1⟩, acq.2.2⟩

/-! ## Claims C3, C4, C8, C9 -/

/-- C4 counterexample: when the underlying search fails,
`EmbeddingManager.similarity_search` itself propagates the failure to its
caller instead of returning an empty result list. -/
theorem c4_counterexample :
    similarity_search (.error "embedding backend unavailable") =
      .error "embedding backend unavailable"
    ∧ similarity_search (.error "embedding backend unavailable") ≠
        .ok ([] : List SearchResult) :=
  ⟨rfl, by simp [similarity_search]⟩

/-- C4 amended: the degradation happens one level up — inside
`RAGEngine.execute_rag_query` the `try/except` around the similarity
search makes a failing search behave exactly like a search that returned
an empty result list, so no failure escapes the pipeline. -/
theorem c4_amended_search_failure_degrades (env : RagEnv) (vs : VectorStore)
    (question : String) (e : String) :
    execute_rag_query { env with searchOutcome := .error e } vs question =
      execute_rag_query { env with searchOutcome := .ok [] } vs question := by
  have hgen : generate_sql_query { env with searchOutcome := Except.error e } =
      generate_sql_query { env with searchOutcome := Except.ok [] } := rfl
  have hfin : rag_finish { env with searchOutcome := Except.error e } =
      rag_finish { env with searchOutcome := Except.ok [] } := rfl
  simp [execute_rag_query, similarity_search, hgen, hfin]

/-- Five concrete rows of a data-centers table. -/
def rows5 : List Row :=
  [[("id", Scalar.int 1), ("name", Scalar.str "DC-East")],
   [("id", Scalar.int 2), ("name", Scalar.str "DC-West")],
   [("id", Scalar.int 3), ("name", Scalar.str "DC-North")],
   [("id", Scalar.int 4), ("name", Scalar.str "DC-South")],
   [("id", Scalar.int 5), ("name", Scalar.str "DC-Central")]]

/-- Concrete environment whose store answers the literal query with the
5 rows. -/
def env5 : RagEnv :=
  { db := fun query =>
      if query = "select * from data_centers" then .ok rows5 else .error "no such table",
    searchOutcome := .ok [],
    llm := fun _ => "generated answer",
    schema_info := "Database Schema:" }

/-- An empty vector store. -/
def vs0 : VectorStore := ⟨[]⟩

/-- The vector store grows by exactly one document per result row on an
`add_sql_results_to_vector_store` call. -/
theorem add_sql_results_length (vs : VectorStore) (query : String) (rows : List Row) :
    (add_sql_results_to_vector_store vs query rows).1.docs.length =
      vs.docs.length + rows.length := by
  cases rows with
  | nil => simp [add_sql_results_to_vector_store]
  | cons r rs =>
    simp only [add_sql_results_to_vector_store]
    rw [if_neg (by simp : ¬(r :: rs = []))]
    simp only [add_texts_to_vector_store]
    rw [if_neg (by simp [List.enum_cons] : ¬((r :: rs).enum.map
      (fun p => sql_result_text query p.1 p.2) = []))]
    simp [VectorStore.add_texts, List.length_zip, List.enum_length]

/-- C3 counterexample: on a 5-row table the literal query adds FIVE
documents to the vector store (one per row), not one. -/
theorem c3_counterexample :
    (execute_rag_query env5 vs0 "select * from data_centers").result.sql_results = rows5
    ∧ (execute_rag_query env5 vs0 "select * from data_centers").vs.docs.length = 5
    ∧ (execute_rag_query env5 vs0 "select * from data_centers").vs.docs.length ≠
        vs0.docs.length + 1 := by
  refine ⟨rfl, rfl, by decide⟩

/-- C3 amended: a literal query whose execution succeeds yields a Direct
("direct_sql") plan whose result rows are exactly the rows the store
returned, and adds exactly one VectorMemory document per returned row. -/
theorem c3_amended_direct_query (env : RagEnv) (vs : VectorStore)
    (question : String) (rows : List Row)
    (hsql : is_sql_query question = true) (hdb : env.db question = .ok rows) :
    (execute_rag_query env vs question).result.query_type = "direct_sql"
    ∧ (execute_rag_query env vs question).result.sql_results = rows
    ∧ (execute_rag_query env vs question).vs.docs.length =
        vs.docs.length + rows.length := by
  have h := add_sql_results_length vs question rows
  simp [execute_rag_query, hsql, hdb, h]

/-- Witness for C3's amended theorem at the 5-row store: 5 rows returned,
5 documents added. -/
theorem c3_amended_witness :
    (execute_rag_query env5 vs0 "select * from data_centers").result.sql_results = rows5
    ∧ (execute_rag_query env5 vs0 "select * from data_centers").vs.docs.length =
        vs0.docs.length + rows5.length := by
  have h := c3_amended_direct_query env5 vs0 "select * from data_centers" rows5
    (by decide) rfl
  exact ⟨h.2.1, h.2.2⟩

/-- C8: the single-token input "hi" takes the greeting short-circuit —
the request performs exactly one LLM call, so no StructuredStore query
and no VectorMemory read or write occur, the vector store is unchanged,
and the exchange is still appended to the conversation history. -/
theorem c8_greeting_short_circuit (env : RagEnv) (st : ConvState) :
    (process_input env st "hi").state.vs = st.vs
    ∧ (process_input env st "hi").events = [Event.llmCall]
    ∧ (process_input env st "hi").state.history =
        st.history ++ [("hi", (process_input env st "hi").response)] := by
  have hg : is_greeting "hi" = true := by decide
  simp [process_input, hg]

/-- C9: every `process_input` call appends exactly one exchange — the
history grows by exactly 1 whether the greeting path or the RAG path ran
and whatever response the generation produced. -/
theorem c9_history_grows_by_one (env : RagEnv) (st : ConvState) (user_input : String) :
    (process_input env st user_input).state.history.length = st.history.length + 1 := by
  by_cases hg : is_greeting user_input = true
  · simp [process_input, hg]
  · simp [process_input, hg]

end DCChat
